import Mathlib

/-!
Shallow embedding of `src/karton/main.py` (the command-dispatch front end of
the Karton tool) and proofs about its registration, parsing, dispatch and
fault-boundary behavior.

Conventions of the embedding:
* argparse argument definitions become `ArgDef` values; a parser's set of
  `add_argument` calls becomes its `List ArgDef`, in call order;
* the `all_commands` Python dict becomes an association list with Python's
  assignment semantics (`dictInsert` replaces the value at an existing key);
* handlers (`do_run`, ..., `do_help`) are opaque to the dispatcher, so they
  are represented by the enumeration `HandlerId`;
* process termination and output are represented by result records
  (`ErrorOutcome`, `BoundaryResult`) instead of actual side effects;
* the repository's `logging` module (imported at main.py:10-13) is not part
  of the source tree here; `die` and the verbosity state are modelled from
  the specification of the diagnostic sink, and are marked as such.
-/

/-- The kind of an argparse argument (`action=` keyword of `add_argument`):
plain `store` (the default), `store_true`, or `store_const`. -/
inductive ArgAction
  | store
  | store_true
  | store_const
deriving DecidableEq

/-- The `nargs=` keyword of `add_argument`: absent (exactly one value),
`nargs='?'` (optional single value), or `nargs=argparse.REMAINDER`. -/
inductive ArgNargs
  | default
  | optional
  | remainder
deriving DecidableEq

/-- One argparse argument definition: the positional `names` (flag strings,
or a single bare name for a positional argument) together with the keyword
arguments used anywhere in main.py (`dest`, `action`, `const`, `nargs`,
`metavar`, `help`). -/
structure ArgDef where
  names : List String
  dest : Option String := none
  action : ArgAction := .store
  const : Option String := none
  nargs : ArgNargs := .default
  metavar : Option String := none
  help : String := ""
deriving DecidableEq

/-- `SharedArgument` (main.py:31-43): definition of an argparse argument
which can be added to multiple subparsers; it just records the parameters
it would pass to `ArgumentParser.add_argument`. -/
structure SharedArgument where
  arg : ArgDef
deriving DecidableEq

/-- `SharedArgument.add_to_parser` (main.py:45-49): add the stored argument
definition to the target parser's argument list.  argparse creates a fresh
action object for each parser, so each attachment is a new element of the
target's own list. -/
def SharedArgument.add_to_parser (sa : SharedArgument) (target_arguments : List ArgDef) :
    List ArgDef :=
  target_arguments ++ [sa.arg]

/-- `SharedArgument.add_group_to_parser` (main.py:51-57): add every shared
argument in the iterable to the target parser, in order. -/
def SharedArgument.add_group_to_parser (target_arguments : List ArgDef)
    (shared_arguments : List SharedArgument) : List ArgDef :=
  shared_arguments.foldl (fun t sa => sa.add_to_parser t) target_arguments

/-- The callbacks registered in `run_karton` (main.py:63-84 and the nested
`do_help`).  The dispatcher treats them as opaque values, so an enumeration
of their identities suffices. -/
inductive HandlerId
  | do_run
  | do_shell
  | do_start
  | do_stop
  | do_status
  | do_build
  | do_help
deriving DecidableEq

/-- A subparser created by `subparsers.add_parser(name, ...)`: its
`description` keyword and the argument definitions added to it so far. -/
structure Subparser where
  description : String
  arguments : List ArgDef
deriving DecidableEq

/-- `CommandInfo` (main.py:60): namedtuple with fields `name`, `subparser`,
`callback`. -/
structure CommandInfo where
  name : String
  subparser : Subparser
  callback : HandlerId
deriving DecidableEq

/-- The `all_commands` dict of `run_karton`, as an association list in
insertion order. -/
abbrev Registry := List (String × CommandInfo)

/-- Python dict assignment `d[k] = v`: replaces the value at an existing key
in place, otherwise appends a new binding.  Neither path reports an error. -/
def dictInsert {α : Type} (d : List (String × α)) (k : String) (v : α) :
    List (String × α) :=
  match d with
  | [] => [(k, v)]
  | (k0, v0) :: rest =>
    if k0 = k then (k, v) :: rest else (k0, v0) :: dictInsert rest k v

/-- Python `d.get(k)`: the value bound to `k`, if any. -/
def dictGet {α : Type} (d : List (String × α)) (k : String) : Option α :=
  match d with
  | [] => none
  | (k0, v0) :: rest => if k0 = k then some v0 else dictGet rest k

/-- Key-preserving map over the values of an association list (used to model
a loop mutating every stored subparser). -/
def mapValues {α : Type} (f : α → α) (d : List (String × α)) : List (String × α) :=
  d.map (fun kv => (kv.1, f kv.2))

theorem dictGet_dictInsert_self {α : Type} (d : List (String × α)) (k : String) (v : α) :
    dictGet (dictInsert d k v) k = some v := by
  induction d with
  | nil => simp [dictInsert, dictGet]
  | cons kv rest ih =>
    obtain ⟨k0, v0⟩ := kv
    by_cases h : k0 = k
    · simp [dictInsert, dictGet, h]
    · simp [dictInsert, dictGet, h, ih]

theorem dictGet_dictInsert_ne {α : Type} (d : List (String × α)) (k k' : String) (v : α)
    (h : k' ≠ k) : dictGet (dictInsert d k v) k' = dictGet d k' := by
  induction d with
  | nil => simp [dictInsert, dictGet, Ne.symm h]
  | cons kv rest ih =>
    obtain ⟨k0, v0⟩ := kv
    by_cases h0 : k0 = k
    · subst h0
      simp [dictInsert, dictGet, Ne.symm h]
    · simp only [dictInsert, if_neg h0]
      by_cases h1 : k0 = k'
      · simp [dictGet, h1]
      · simp [dictGet, h1, ih]

theorem dictGet_mapValues {α : Type} (f : α → α) (d : List (String × α)) (k : String) :
    dictGet (mapValues f d) k = (dictGet d k).map f := by
  induction d with
  | nil => rfl
  | cons kv rest ih =>
    obtain ⟨k0, v0⟩ := kv
    by_cases h : k0 = k
    · simp [mapValues, dictGet, h]
    · simp only [mapValues, List.map_cons, dictGet, if_neg h]
      simpa [mapValues] using ih

/-- Append one more argument definition to a stored command's subparser. -/
def append_argument (a : ArgDef) (c : CommandInfo) : CommandInfo :=
  { c with subparser := { c.subparser with arguments := c.subparser.arguments ++ [a] } }

/-- `add_command` (main.py:97-103): create a subparser for the command (its
argument list starts empty, its `description` keyword is recorded) and store
a `CommandInfo` under the command name in `all_commands`.  Python 2.7's
`add_parser` performs no duplicate-name check and the dict assignment
silently replaces an existing entry, so this function is total.  The `help`
keyword only feeds the top-level command listing and is not recorded in the
`CommandInfo`. -/
def add_command (all_commands : Registry) (command_name : String) (callback : HandlerId)
    (help description : String) : Registry :=
  dictInsert all_commands command_name
    { name := command_name
      subparser := { description := description, arguments := [] }
      callback := callback }

/-- `add_to_every_command` (main.py:105-107): add the argument definition to
the subparser of every command currently in `all_commands`. -/
def add_to_every_command (all_commands : Registry) (a : ArgDef) : Registry :=
  mapValues (append_argument a) all_commands

/-- `<command>_parser.add_argument(...)` on a parser stored in the registry:
the parser object is aliased by its registry entry, so mutating it is
modelled as updating the entry with that command name. -/
def add_argument_to (all_commands : Registry) (command_name : String) (a : ArgDef) :
    Registry :=
  all_commands.map (fun kv =>
    if kv.1 = command_name then (kv.1, append_argument a kv.2) else kv)

/-- `SharedArgument.add_group_to_parser` applied to a parser stored in the
registry. -/
def add_group_to (all_commands : Registry) (command_name : String)
    (shared_arguments : List SharedArgument) : Registry :=
  shared_arguments.foldl (fun st sa => add_argument_to st command_name sa.arg) all_commands

/-- Outcome of a call to the parser's `error` method (which always
terminates the process): what is printed where, and the exit code. -/
structure ErrorOutcome where
  helpToStdout : Bool
  usageToStderr : Bool
  messageToStderr : Option String
  exitCode : Nat
deriving DecidableEq

/-- The stdlib behavior of `argparse.ArgumentParser.error` (reached through
`super(...).error(message)` at main.py:28): print the usage text and a
`prog: error: message` line to standard error and exit with the generic
usage-error code 2. -/
def argparse_default_error (message : String) : ErrorOutcome :=
  { helpToStdout := false
    usageToStderr := true
    messageToStderr := some message
    exitCode := 2 }

/-- The `ArgumentParser.error` override (main.py:21-28): if the engine's
message is exactly `"too few arguments"`, print the full program help to
standard output and raise `SystemExit(1)`; every other message is delegated
to the stdlib default handling. -/
def ArgumentParser.error (message : String) : ErrorOutcome :=
  if message = "too few arguments" then
    { helpToStdout := true
      usageToStderr := false
      messageToStderr := none
      exitCode := 1 }
  else
    argparse_default_error message

/-- Python 2.7 argparse reports a missing required positional — in
particular the missing COMMAND subparser slot when the program is invoked
with zero process arguments — with the exact error message
`"too few arguments"`.  This stdlib behavior is what the override at
main.py:21-26 targets (see the comment at main.py:23-24). -/
def empty_argv_error_message : String := "too few arguments"

/-- `pre` is a prefix of `s`, computed on character lists (used to model
argparse's option-string recognition and message checks). -/
def str_starts_with (pre s : String) : Bool :=
  pre.toList.isPrefixOf s.toList

/-- Replace dashes by underscores, as argparse does when deriving a `dest`
from an option string. -/
def underscore_dashes (cs : List Char) : List Char :=
  cs.map (fun c => if c = '-' then '_' else c)

/-- argparse's derivation of `dest` when the `dest=` keyword is absent:
the first long option string without its leading `--` (dashes replaced by
underscores), else the first short option without its leading `-`, else the
bare name of a positional argument. -/
def derive_dest (names : List String) : String :=
  match names.find? (fun s => str_starts_with "--" s) with
  | some s => ⟨underscore_dashes (s.toList.drop 2)⟩
  | none =>
    match names with
    | [] => ""
    | n :: _ =>
      if str_starts_with "-" n then ⟨underscore_dashes (n.toList.drop 1)⟩ else n

/-- The destination key of an argument definition. -/
def destOf (a : ArgDef) : String :=
  a.dest.getD (derive_dest a.names)

/-- An argument is positional when none of its name strings is an option
string. -/
def ArgDef.isPositional (a : ArgDef) : Bool :=
  a.names.all (fun s => ! str_starts_with "-" s)

/-- A value stored in the parsed-arguments namespace. -/
inductive ArgValue
  | none
  | bool (b : Bool)
  | str (s : String)
  | list (tokens : List String)
deriving DecidableEq

/-- argparse's default value for an argument with no `default=` keyword
(none is used in main.py): `False` for `store_true`, the empty list for a
`REMAINDER` positional, `None` otherwise. -/
def arg_default (a : ArgDef) : ArgValue :=
  match a.action, a.nargs with
  | .store_true, _ => .bool false
  | _, .remainder => .list []
  | _, _ => .none

/-- The fresh namespace an invocation starts from: every argument's
destination bound to its default.  A new namespace is built for every call
to `parse_args`, so invocations share no state. -/
def init_namespace (defs : List ArgDef) : List (String × ArgValue) :=
  defs.foldl (fun ns a => dictInsert ns (destOf a) (arg_default a)) []

/-- One pass of argparse's token consumption over a subparser's grammar:
an option string triggers its action (`store` consumes the next token as
the value); a non-option token is consumed by the next pending positional,
with a `REMAINDER` positional capturing every remaining token.  An
unrecognized option string or a token with no pending positional is a usage
error (`Option.none`). -/
def parse_tokens (optionDefs : List ArgDef) :
    List ArgDef → List (String × ArgValue) → List String →
      Option (List (String × ArgValue))
  | _, ns, [] => some ns
  | positionals, ns, tok :: rest =>
    if str_starts_with "-" tok then
      match optionDefs.find? (fun a => a.names.contains tok) with
      | Option.none => Option.none
      | some a =>
        match a.action with
        | .store_true =>
          parse_tokens optionDefs positionals (dictInsert ns (destOf a) (.bool true)) rest
        | .store_const =>
          parse_tokens optionDefs positionals
            (dictInsert ns (destOf a)
              (match a.const with
               | some c => .str c
               | Option.none => .none)) rest
        | .store =>
          match rest with
          | [] => Option.none
          | v :: rest2 =>
            parse_tokens optionDefs positionals (dictInsert ns (destOf a) (.str v)) rest2
    else
      match positionals with
      | [] => Option.none
      | p :: ps =>
        match p.nargs with
        | .remainder => some (dictInsert ns (destOf p) (.list (tok :: rest)))
        | _ => parse_tokens optionDefs ps (dictInsert ns (destOf p) (.str tok)) rest

/-- Parse one invocation of a single subcommand: build the fresh default
namespace from the command's argument definitions and consume the tokens. -/
def parse_args (defs : List ArgDef) (tokens : List String) :
    Option (List (String × ArgValue)) :=
  parse_tokens (defs.filter (fun a => ! a.isPositional)) (defs.filter ArgDef.isPositional)
    (init_namespace defs) tokens

/-- A pair of separate invocations, each parsing its own command's grammar
with its own tokens (no state flows from one to the other). -/
def two_invocations (defsA : List ArgDef) (toksA : List String)
    (defsB : List ArgDef) (toksB : List String) :
    Option (List (String × ArgValue)) × Option (List (String × ArgValue)) :=
  (parse_args defsA toksA, parse_args defsB toksB)

/-- `--no-cd` (main.py:111-116), the first of the two shared `cd` arguments. -/
def no_cd_arg : ArgDef :=
  { names := ["--no-cd"]
    dest := some "cd"
    action := .store_const
    const := some "no"
    help := "don\x27t change the current directory in the container" }

/-- `--auto-cd` (main.py:117-123), the second shared `cd` argument (the help
text reproduces the source's typo). -/
def auto_cd_arg : ArgDef :=
  { names := ["--auto-cd"]
    dest := some "cd"
    action := .store_const
    const := some "auto"
    help := "chanbge the current directory in the container only if the same is available in both container and host" }

/-- `cd_args` (main.py:110-124): the tuple of shared arguments common to the
`run` and `shell` commands. -/
def cd_args : List SharedArgument :=
  [{ arg := no_cd_arg }, { arg := auto_cd_arg }]

/-- The `remainder` positional of the `run` command (main.py:133-137). -/
def remainder_arg : ArgDef :=
  { names := ["remainder"]
    nargs := .remainder
    metavar := some "COMMANDS"
    help := "commands to execute in the container" }

/-- The optional `sub_command` positional of the `help` command
(main.py:203-207). -/
def sub_command_arg : ArgDef :=
  { names := ["sub_command"]
    nargs := .optional
    metavar := some "COMMAND"
    help := "command you want to know more about" }

/-- The `-v`/`--verbose` argument added to every command (main.py:210-214);
its destination is derived as `verbose`. -/
def verbose_arg : ArgDef :=
  { names := ["-v", "--verbose"]
    action := .store_true
    help := "enable verbose logging" }

/-- The `all_commands` registry exactly as `run_karton` builds it
(main.py:92-214), in source order, ending with
`add_to_every_command('-v', '--verbose', ...)`. -/
def run_karton_commands : Registry :=
  let st := add_command [] "run" .do_run "run a  program in the container"
    "Runs a program or command inside the container (starting it if necessary)."
  let st := add_argument_to st "run" remainder_arg
  let st := add_group_to st "run" cd_args
  let st := add_command st "shell" .do_shell "start a shell in the container"
    "Starts an interactive shell inside the container (starting it if necessary)"
  let st := add_group_to st "shell" cd_args
  let st := add_command st "start" .do_start "if not running, start the container"
    "Starts the container. If already running does nothing. Usually you should not need to use this command as both \"run\" and \"shell\" start the container automatically."
  let st := add_command st "stop" .do_stop "stop the container if running"
    "Stops the container. If already not running does nothing."
  let st := add_command st "status" .do_status "query the status of the container"
    "Prints information about the status of the container and the list of programs running in it."
  let st := add_command st "build" .do_build "build the image for the container"
    "Builds (or rebuilds) the image for the specified container."
  let st := add_command st "help" .do_help "show the help message"
    "Shows the documentation. If used with no argument, then the general documentation is shown. Otherwise, when a command is specified as argument, the documentation for that command is shown."
  let st := add_argument_to st "help" sub_command_arg
  add_to_every_command st verbose_arg

/-- The argument list the `run` subparser ends up with: the `remainder`
positional, then the two shared `cd` options, then `-v`/`--verbose`. -/
def run_arguments : List ArgDef :=
  [remainder_arg, no_cd_arg, auto_cd_arg, verbose_arg]

/-- The argument list the `shell` subparser ends up with. -/
def shell_arguments : List ArgDef :=
  [no_cd_arg, auto_cd_arg, verbose_arg]

/-- What a call to `do_help` does: print the whole program's help, print one
subcommand's help, or call `die`. -/
inductive HelpResult
  | programHelp
  | commandHelp (sub : Subparser)
  | dieResult (message : String)
deriving DecidableEq

/-- The message `do_help` passes to `die` for an unregistered command name
(the `%` format at main.py:190-191). -/
def unknown_command_message (sub_command_name : String) : String :=
  "\"" ++ sub_command_name ++
    "\" is not a Karton command. Try \"karton help\" to list the available commands."

/-- `do_help` (main.py:182-193): with no argument print the program help;
with a registered command name print that command's subparser help; with an
unregistered name call `die` with a message naming the command. -/
def do_help (all_commands : Registry) (sub_command : Option String) : HelpResult :=
  match sub_command with
  | none => .programHelp
  | some sub_command_name =>
    match dictGet all_commands sub_command_name with
    | none => .dieResult (unknown_command_message sub_command_name)
    | some command => .commandHelp command.subparser

/-- Result of running a piece of the program up to process exit: the
user-facing messages emitted in order, whether a technical trace reaches the
user, and the process exit code. -/
structure BoundaryResult where
  printed : List String
  traceback : Bool
  exitCode : Nat
deriving DecidableEq

/-- Modelled from the spec: `die` of the logging module (imported at
main.py:13 but not under `src/`) prints its user-facing message and
terminates the invocation with the failure exit code 1, never printing a
technical trace (spec sections 4.4, 6 and 7: "user-facing single-line
message, non-zero exit, no trace"). -/
def die (message : String) : BoundaryResult :=
  { printed := [message], traceback := false, exitCode := 1 }

/-- Execution of `do_help` under a given process verbosity state: the `die`
path terminates via `die`, which does not consult the verbosity state; the
two help-printing paths return normally (no early termination). -/
def do_help_exec (verbosity : Bool) (all_commands : Registry) (sub_command : Option String) :
    Option BoundaryResult :=
  match do_help all_commands sub_command with
  | .dieResult m => some (die m)
  | _ => none

/-- The `ParsedArguments` fields `run_karton` itself reads after a
successful parse (main.py:217-227): the chosen command name and the
verbosity flag. -/
structure ParsedArgs where
  command : String
  verbose : Bool
deriving DecidableEq

/-- The externally visible steps `run_karton` performs after
`parser.parse_args()` returns. -/
inductive DispatchEvent
  | setVerboseEv (flag : Bool)
  | lookupEv (command : String)
  | invokeHandlerEv (callback : HandlerId)
  | dieEv (message : String)
deriving DecidableEq

/-- `run_karton` after a successful parse (main.py:217-227), as the ordered
trace of its effects: `logging.set_verbose(parsed_args.verbose)` first, then
the registry lookup, then either `die` on a failed lookup or the handler
call.  (`set_verbose` itself is the spec-modelled write of the process-wide
verbosity state.) -/
def run_karton_dispatch (all_commands : Registry) (parsed_args : ParsedArgs) :
    List DispatchEvent :=
  .setVerboseEv parsed_args.verbose ::
  .lookupEv parsed_args.command ::
  (match dictGet all_commands parsed_args.command with
   | none =>
     [.dieEv ("Invalid command \"" ++ parsed_args.command ++ "\". This should not happen.")]
   | some command => [.invokeHandlerEv command.callback])

/-- How `run_karton()` itself can end, seen from `main`'s `try` block:
normal return, `KeyboardInterrupt`, an ordinary `Exception` carrying a
message, or a `SystemExit` already raised further down (parser errors and
`die` raise `SystemExit`, which is not an `Exception` in Python). -/
inductive RunOutcome
  | normal
  | keyboard_interrupt
  | exn (message : String)
  | sys_exit (code : Nat)
deriving DecidableEq

/-- The sanitized message built at main.py:246:
`'Internal error!\nGot exception: "%s".\n' % exc`. -/
def internal_error_message (exc : String) : String :=
  "Internal error!\nGot exception: \"" ++ exc ++ "\".\n"

/-- `main` (main.py:230-253) as a function of how `run_karton` ended and of
the process-wide verbosity state at that moment:
* normal return falls through to `raise SystemExit(0)`;
* `KeyboardInterrupt` prints the interruption notice via `info` (the
  spec-modelled sink prints `info` messages unconditionally) and raises
  `SystemExit(1)`;
* any other `Exception` is shown as the sanitized message: with verbosity on
  it is printed via `verbose` and the exception is re-raised, so the
  interpreter prints the traceback and exits 1; with verbosity off it goes
  through `die` (no trace, exit 1);
* a `SystemExit` matches neither `except` clause, so it propagates with its
  own code and the final `raise SystemExit(0)` is never reached.
(The source function is called `main`; Lean reserves that name for an entry
point of a different type, hence the prefix.) -/
def karton_main (run_result : RunOutcome) (verbosity : Bool) : BoundaryResult :=
  match run_result with
  | .normal => { printed := [], traceback := false, exitCode := 0 }
  | .keyboard_interrupt => { printed := ["\nInterrupted."], traceback := false, exitCode := 1 }
  | .exn exc =>
    let msg := internal_error_message exc
    if verbosity then { printed := [msg], traceback := true, exitCode := 1 }
    else die msg
  | .sys_exit code => { printed := [], traceback := false, exitCode := code }

/-- Split a character list at newline characters. -/
def lines_of (cs : List Char) : List (List Char) :=
  cs.foldr
    (fun c acc =>
      if c = '\n' then [] :: acc
      else
        match acc with
        | [] => [[c]]
        | l :: ls => (c :: l) :: ls)
    [[]]

/-- The number of non-empty lines of a string. -/
def line_count (s : String) : Nat :=
  ((lines_of s.toList).filter (fun l => ! l.isEmpty)).length

/-- Whether a message is (the start of) the internal-error message. -/
def mentions_internal_error (s : String) : Bool :=
  str_starts_with "Internal error!" s

/-- Claim C1: with zero process arguments argparse fails with the message
"too few arguments", and the override then prints the full program help to
standard output, exits with code 1 — not the generic usage-error code 2 —
and prints no generic usage-error line to standard error. -/
theorem zero_arguments_prints_help_and_exits_one :
    ArgumentParser.error empty_argv_error_message =
      { helpToStdout := true, usageToStderr := false, messageToStderr := none, exitCode := 1 }
    ∧ (ArgumentParser.error empty_argv_error_message).helpToStdout = true
    ∧ (ArgumentParser.error empty_argv_error_message).exitCode = 1
    ∧ (ArgumentParser.error empty_argv_error_message).exitCode ≠ 2
    ∧ (ArgumentParser.error empty_argv_error_message).usageToStderr = false
    ∧ (ArgumentParser.error empty_argv_error_message).messageToStderr = none := by
  decide

/-- Claim C10: the special help-and-exit-1 presentation is triggered exactly
when the engine's error message is the string "too few arguments"; every
other message is delegated to the stdlib default handling (usage text on
standard error, generic usage-error exit code 2). -/
theorem error_override_triggers_only_on_too_few_arguments (message : String) :
    (ArgumentParser.error message =
        { helpToStdout := true, usageToStderr := false, messageToStderr := none, exitCode := 1 }
      ↔ message = "too few arguments")
    ∧ (message ≠ "too few arguments" →
        ArgumentParser.error message = argparse_default_error message
        ∧ (ArgumentParser.error message).exitCode = 2
        ∧ (ArgumentParser.error message).usageToStderr = true
        ∧ (ArgumentParser.error message).helpToStdout = false) := by
  constructor
  · constructor
    · intro h
      by_contra hne
      have h2 : ArgumentParser.error message = argparse_default_error message := by
        unfold ArgumentParser.error
        rw [if_neg hne]
      rw [h2] at h
      have := congrArg ErrorOutcome.exitCode h
      simp [argparse_default_error] at this
    · intro h
      subst h
      rfl
  · intro hne
    have h2 : ArgumentParser.error message = argparse_default_error message := by
      unfold ArgumentParser.error
      rw [if_neg hne]
    refine ⟨h2, ?_, ?_, ?_⟩ <;> rw [h2] <;> rfl

/-- Witness for C10 at the concrete messages "unrecognized arguments:
--bogus" (delegated, exit 2) and "too few arguments" (special path). -/
theorem error_override_witness :
    ArgumentParser.error "unrecognized arguments: --bogus" =
      argparse_default_error "unrecognized arguments: --bogus"
    ∧ (ArgumentParser.error "unrecognized arguments: --bogus").exitCode = 2
    ∧ ArgumentParser.error "too few arguments" =
      { helpToStdout := true, usageToStderr := false, messageToStderr := none, exitCode := 1 } :=
  ⟨((error_override_triggers_only_on_too_few_arguments
      "unrecognized arguments: --bogus").2 (by decide)).1,
   ((error_override_triggers_only_on_too_few_arguments
      "unrecognized arguments: --bogus").2 (by decide)).2.1,
   (error_override_triggers_only_on_too_few_arguments "too few arguments").1.mpr rfl⟩

/-- Claim C2 counterexample: with verbosity off and a handler failure whose
message is "boom", the fault boundary emits exactly one sanitized message,
but that message spans two lines ("Internal error!" and
"Got exception: ..."), so "exactly one sanitized line" is false. -/
theorem internal_error_two_lines_counterexample :
    (karton_main (.exn "boom") false).printed = [internal_error_message "boom"]
    ∧ (karton_main (.exn "boom") false).printed.length = 1
    ∧ line_count (internal_error_message "boom") = 2
    ∧ line_count (internal_error_message "boom") ≠ 1 := by
  decide

/-- Claim C2 (amended): for every uncaught handler failure that is neither
an interrupt nor a usage error: with the verbosity flag set, the boundary
emits the sanitized diagnostic and the technical trace (re-raise) and still
terminates non-zero; with the flag unset, it emits exactly one sanitized
message — the two-line "Internal error!\nGot exception: ..." text — with no
technical trace, and terminates with the failure exit code 1. -/
theorem fault_boundary_verbosity_asymmetry (exc : String) :
    (karton_main (.exn exc) true).printed = [internal_error_message exc]
    ∧ (karton_main (.exn exc) true).traceback = true
    ∧ (karton_main (.exn exc) true).exitCode = 1
    ∧ (karton_main (.exn exc) true).exitCode ≠ 0
    ∧ (karton_main (.exn exc) false).printed = [internal_error_message exc]
    ∧ (karton_main (.exn exc) false).printed.length = 1
    ∧ (karton_main (.exn exc) false).traceback = false
    ∧ (karton_main (.exn exc) false).exitCode = 1
    ∧ (karton_main (.exn exc) false).exitCode ≠ 0 := by
  exact ⟨rfl, rfl, rfl, Nat.one_ne_zero, rfl, rfl, rfl, rfl, Nat.one_ne_zero⟩

/-- Claim C3: a `KeyboardInterrupt` during dispatch prints the short
interruption notice, exits with code 1, prints no backtrace regardless of
the verbosity setting, and does not take the internal-error path. -/
theorem keyboard_interrupt_notice_exit_one (v : Bool) :
    karton_main .keyboard_interrupt v =
      { printed := ["\nInterrupted."], traceback := false, exitCode := 1 }
    ∧ (karton_main .keyboard_interrupt v).traceback = false
    ∧ (karton_main .keyboard_interrupt v).exitCode = 1
    ∧ ∀ m ∈ (karton_main .keyboard_interrupt v).printed, mentions_internal_error m = false := by
  cases v <;> exact ⟨rfl, rfl, rfl, by decide⟩

/-- Claim C8: when the dispatcher completes normally the process exits with
code 0 and nothing extra is printed; and when any earlier path already
raised `SystemExit` with some code, that code is the one produced — the
trailing success exit is unreachable and never overrides it.  `karton_main`
maps each run outcome to exactly one exit code. -/
theorem exit_codes_single_and_preserved (v : Bool) (code : Nat) :
    (karton_main .normal v).exitCode = 0
    ∧ (karton_main .normal v).printed = []
    ∧ (karton_main (.sys_exit code) v).exitCode = code
    ∧ (karton_main (.sys_exit code) v).printed = [] := by
  cases v <;> exact ⟨rfl, rfl, rfl, rfl⟩

/-- Claim C4 counterexample: registering `"run"` a second time does not fail
with a registration error — `add_command` is total (Python 2.7's
`add_parser` and the dict assignment perform no duplicate check) — and the
existing entry IS silently replaced: after the second registration the
registry holds the second callback and no trace of the first. -/
theorem duplicate_registration_silently_replaces :
    add_command (add_command [] "run" .do_run "h1" "d1") "run" .do_shell "h2" "d2"
      = [("run", { name := "run"
                   subparser := { description := "d2", arguments := [] }
                   callback := .do_shell })]
    ∧ dictGet (add_command (add_command [] "run" .do_run "h1" "d1") "run" .do_shell "h2" "d2")
        "run"
      = some { name := "run"
               subparser := { description := "d2", arguments := [] }
               callback := .do_shell }
    ∧ HandlerId.do_shell ≠ HandlerId.do_run := by
  decide

/-- Claim C4 (amended): registering a command under a name that is already
registered silently replaces the existing entry (no registration error is
raised); registering two commands under distinct names succeeds and each is
independently retrievable by its name. -/
theorem registration_replace_and_distinct_lookup (st : Registry) (n n1 n2 : String)
    (cb cb2 cb3 cb4 : HandlerId) (h1 d1 h2 d2 : String) (hne : n1 ≠ n2) :
    dictGet (add_command (add_command st n cb h1 d1) n cb2 h2 d2) n
      = some { name := n, subparser := { description := d2, arguments := [] }, callback := cb2 }
    ∧ dictGet (add_command (add_command st n1 cb3 h1 d1) n2 cb4 h2 d2) n1
      = some { name := n1, subparser := { description := d1, arguments := [] }, callback := cb3 }
    ∧ dictGet (add_command (add_command st n1 cb3 h1 d1) n2 cb4 h2 d2) n2
      = some { name := n2, subparser := { description := d2, arguments := [] }, callback := cb4 } := by
  refine ⟨?_, ?_, ?_⟩
  · exact dictGet_dictInsert_self _ _ _
  · rw [add_command, dictGet_dictInsert_ne _ _ _ _ hne]
    exact dictGet_dictInsert_self _ _ _
  · exact dictGet_dictInsert_self _ _ _

/-- Witness for C4 (amended) at concrete inputs: re-registering `"run"`
replaces the entry; registering `"start"` then `"stop"` leaves both
retrievable. -/
theorem registration_witness :
    dictGet (add_command (add_command [] "run" .do_run "h1" "d1") "run" .do_shell "h2" "d2")
        "run"
      = some { name := "run"
               subparser := { description := "d2", arguments := [] }
               callback := .do_shell }
    ∧ dictGet (add_command (add_command [] "start" .do_start "h1" "d1") "stop" .do_stop "h2" "d2")
        "start"
      = some { name := "start"
               subparser := { description := "d1", arguments := [] }
               callback := .do_start }
    ∧ dictGet (add_command (add_command [] "start" .do_start "h1" "d1") "stop" .do_stop "h2" "d2")
        "stop"
      = some { name := "stop"
               subparser := { description := "d2", arguments := [] }
               callback := .do_stop } :=
  registration_replace_and_distinct_lookup [] "run" "start" "stop" .do_run .do_shell .do_start
    .do_stop "h1" "d1" "h2" "d2" (by decide)

/-- Claim C6: in every invocation whose parse succeeds, the dispatch trace
of `run_karton` begins with the single write of the process-wide verbosity
state taken from the parsed flag; no later event writes it again, the
registry lookup comes right after it, and any handler invocation occurs
strictly later still — so no handler runs with the verbosity state at its
initial value. -/
theorem verbosity_set_once_before_dispatch (all_commands : Registry)
    (parsed_args : ParsedArgs) :
    (run_karton_dispatch all_commands parsed_args).head?
      = some (.setVerboseEv parsed_args.verbose)
    ∧ ((run_karton_dispatch all_commands parsed_args).tail.all
        (fun e => match e with
          | .setVerboseEv _ => false
          | _ => true)) = true
    ∧ (run_karton_dispatch all_commands parsed_args).tail.head?
      = some (.lookupEv parsed_args.command)
    ∧ ∀ cb, DispatchEvent.invokeHandlerEv cb ∈ run_karton_dispatch all_commands parsed_args →
        DispatchEvent.invokeHandlerEv cb ∈
          (run_karton_dispatch all_commands parsed_args).tail.tail := by
  unfold run_karton_dispatch
  cases dictGet all_commands parsed_args.command <;> simp

/-- Claim C7: `add_to_every_command` adds the argument definition to exactly
the commands registered before the call: for X and Y registered before it
and Z registered after it, the argument is present on X and Y and absent on
Z (whose fresh subparser starts with no arguments). -/
theorem add_to_every_command_order_sensitive (st : Registry) (X Y Z : String)
    (cX cY : CommandInfo) (a : ArgDef) (cbZ : HandlerId) (hZ dZ : String)
    (hX : dictGet st X = some cX) (hY : dictGet st Y = some cY)
    (hXZ : X ≠ Z) (hYZ : Y ≠ Z) :
    (∃ c, dictGet (add_command (add_to_every_command st a) Z cbZ hZ dZ) X = some c
        ∧ a ∈ c.subparser.arguments)
    ∧ (∃ c, dictGet (add_command (add_to_every_command st a) Z cbZ hZ dZ) Y = some c
        ∧ a ∈ c.subparser.arguments)
    ∧ ∃ c, dictGet (add_command (add_to_every_command st a) Z cbZ hZ dZ) Z = some c
        ∧ a ∉ c.subparser.arguments := by
  refine ⟨⟨append_argument a cX, ?_, ?_⟩, ⟨append_argument a cY, ?_, ?_⟩, ?_⟩
  · rw [add_command, dictGet_dictInsert_ne _ _ _ _ hXZ, add_to_every_command,
      dictGet_mapValues, hX]
    rfl
  · simp [append_argument]
  · rw [add_command, dictGet_dictInsert_ne _ _ _ _ hYZ, add_to_every_command,
      dictGet_mapValues, hY]
    rfl
  · simp [append_argument]
  · refine ⟨{ name := Z, subparser := { description := dZ, arguments := [] }, callback := cbZ },
      ?_, ?_⟩
    · exact dictGet_dictInsert_self _ _ _
    · simp

/-- Witness for C7 at concrete inputs: with `run` and `shell` registered,
adding `-v`/`--verbose` to every command and then registering `status`
leaves the argument on `run` and `shell` but not on `status`. -/
theorem add_to_every_command_witness :
    (∃ c, dictGet (add_command (add_to_every_command
          (add_command (add_command [] "run" .do_run "hr" "dr") "shell" .do_shell "hs" "ds")
          verbose_arg) "status" .do_status "ht" "dt") "run" = some c
        ∧ verbose_arg ∈ c.subparser.arguments)
    ∧ (∃ c, dictGet (add_command (add_to_every_command
          (add_command (add_command [] "run" .do_run "hr" "dr") "shell" .do_shell "hs" "ds")
          verbose_arg) "status" .do_status "ht" "dt") "shell" = some c
        ∧ verbose_arg ∈ c.subparser.arguments)
    ∧ ∃ c, dictGet (add_command (add_to_every_command
          (add_command (add_command [] "run" .do_run "hr" "dr") "shell" .do_shell "hs" "ds")
          verbose_arg) "status" .do_status "ht" "dt") "status" = some c
        ∧ verbose_arg ∉ c.subparser.arguments :=
  add_to_every_command_order_sensitive
    (add_command (add_command [] "run" .do_run "hr" "dr") "shell" .do_shell "hs" "ds")
    "run" "shell" "status"
    { name := "run", subparser := { description := "dr", arguments := [] }, callback := .do_run }
    { name := "shell", subparser := { description := "ds", arguments := [] }, callback := .do_shell }
    verbose_arg .do_status "ht" "dt"
    (by decide) (by decide) (by decide) (by decide)

/-- The `CommandInfo` stored for `run` once `run_karton` has finished
building the registry. -/
def run_command_info : CommandInfo :=
  { name := "run"
    subparser :=
      { description := "Runs a program or command inside the container (starting it if necessary)."
        arguments := run_arguments }
    callback := .do_run }

/-- Claim C5: `help <name>` for an unregistered name calls `die` with a
user-facing message that quotes the name and suggests `karton help`,
terminating with a non-zero exit code and no technical trace, whatever the
verbosity state; `help <name>` for a registered name prints that
subcommand's own help. -/
theorem help_unknown_dies_known_prints (st : Registry) (n m : String) (c : CommandInfo)
    (hn : dictGet st n = none) (hm : dictGet st m = some c) :
    do_help st (some n) = .dieResult (unknown_command_message n)
    ∧ (∀ v : Bool, do_help_exec v st (some n) = some (die (unknown_command_message n)))
    ∧ (die (unknown_command_message n)).exitCode = 1
    ∧ (die (unknown_command_message n)).exitCode ≠ 0
    ∧ (die (unknown_command_message n)).traceback = false
    ∧ (∃ pre post, unknown_command_message n = pre ++ (n ++ post)
        ∧ pre = "\""
        ∧ post = "\" is not a Karton command. Try \"karton help\" to list the available commands.")
    ∧ do_help st (some m) = .commandHelp c.subparser := by
  refine ⟨?_, ?_, rfl, Nat.one_ne_zero, rfl, ?_, ?_⟩
  · simp [do_help, hn]
  · intro v
    simp [do_help_exec, do_help, hn]
  · exact ⟨"\"",
      "\" is not a Karton command. Try \"karton help\" to list the available commands.",
      rfl, rfl, rfl⟩
  · simp [do_help, hm]

/-- Witness for C5 on the registry `run_karton` actually builds: `bogus` is
not registered and `run` is. -/
theorem help_command_witness :
    do_help run_karton_commands (some "bogus") = .dieResult (unknown_command_message "bogus")
    ∧ (∀ v : Bool, do_help_exec v run_karton_commands (some "bogus")
        = some (die (unknown_command_message "bogus")))
    ∧ (die (unknown_command_message "bogus")).exitCode = 1
    ∧ (die (unknown_command_message "bogus")).exitCode ≠ 0
    ∧ (die (unknown_command_message "bogus")).traceback = false
    ∧ (∃ pre post, unknown_command_message "bogus" = pre ++ ("bogus" ++ post)
        ∧ pre = "\""
        ∧ post = "\" is not a Karton command. Try \"karton help\" to list the available commands.")
    ∧ do_help run_karton_commands (some "run") = .commandHelp run_command_info.subparser :=
  help_unknown_dies_known_prints run_karton_commands "bogus" "run" run_command_info
    (by decide) (by decide)

/-- Claim C9: a shared argument attached to two different commands yields
independent per-invocation parses: whatever tokens command A's invocation is
given, command B's separate invocation of `parse_args` is the same value and
parses the shared destination key `cd` to its default `None`; in particular
supplying `--no-cd` on A's invocation yields `"no"` there while B's
invocation still sees the default.  Both argument lists contain their own
instance of the shared `--no-cd` definition, sharing only the destination
key. -/
theorem shared_argument_no_cross_invocation_state (toksA : List String) :
    (two_invocations run_arguments toksA shell_arguments []).2
      = parse_args shell_arguments []
    ∧ ((two_invocations run_arguments ["--no-cd"] shell_arguments []).2.bind
        (fun ns => dictGet ns "cd")) = some ArgValue.none
    ∧ ((two_invocations run_arguments ["--no-cd"] shell_arguments []).1.bind
        (fun ns => dictGet ns "cd")) = some (ArgValue.str "no")
    ∧ no_cd_arg ∈ run_arguments
    ∧ no_cd_arg ∈ shell_arguments
    ∧ destOf no_cd_arg = "cd" := by
  exact ⟨rfl, by decide, by decide, by decide, by decide, by decide⟩
